import Mathlib

/-!
Shallow embedding of the offlinetube Next.js API route handlers.

Each handler is a pure function from the inbound request data and a modeled
backend (a map from outbound URL to a fetch outcome) to a `HandlerResult`,
which records the outbound HTTP response together with the list of backend
URLs fetched and the `console.error` labels logged.  The embedding follows
the TypeScript source in `src/app/api/...` line by line:

* `fetch` either rejects (`FetchOutcome.failure`, a network error) or
  resolves to a `BackendResponse` carrying the status, the two headers the
  code reads, the raw body bytes, and the result of `response.json()`
  (`none` means the body is not decodable as JSON, so `response.json()`
  rejects).
* `response.ok` is the Fetch API predicate `200 <= status < 300`.
* JavaScript truthiness of strings (`if (!url)`, `get('max_results') || '20'`,
  `if (contentLength)`) and of JSON values (`errorData.detail || ...`) is
  modeled explicitly; property access on `null` throws, which the source's
  `try`/`catch` turns into the generic 500 response.
* `encodeURIComponent` is modeled with its exact unreserved-character set
  and UTF-8 percent-encoding.
-/

namespace OfflineTube

/-- A JSON value, the result of `response.json()` / argument of
`NextResponse.json`. -/
inductive Json where
  | null : Json
  | bool : Bool → Json
  | num : Int → Json
  | str : String → Json
  | arr : List Json → Json
  | obj : List (String × Json) → Json
deriving Repr

/-- JavaScript truthiness of a JSON value (`NaN` cannot arise from
`JSON.parse` of a finite literal; numbers are modeled as integers). -/
def Json.truthy : Json → Bool
  | .null => false
  | .bool b => b
  | .num n => n != 0
  | .str s => s != ""
  | .arr _ => true
  | .obj _ => true

/-- JavaScript truthiness of `x.field` where `x.field` may be `undefined`
(`none`). -/
def jsTruthy : Option Json → Bool
  | none => false
  | some j => j.truthy

/-- JavaScript property access `j.k` on a decoded JSON value: on `null` it
throws a `TypeError` (`Except.error`), on an object it yields the field
(or `undefined` = `none`), on any other value it yields `undefined`. -/
def jsGetField : Json → String → Except Unit (Option Json)
  | .null, _ => .error ()
  | .obj fields, k => .ok (fields.lookup k)
  | _, _ => .ok none

/-- Truthiness test used for `if (!s)` on the result of
`searchParams.get(name)` (`null` and the empty string are falsy). -/
def jsFalsyStr : Option String → Bool
  | none => true
  | some s => s == ""

/-- `o || d` on the result of `searchParams.get(name)`: `null` and `""`
fall back to the default. -/
def jsOrDefault (o : Option String) (d : String) : String :=
  match o with
  | none => d
  | some s => if s == "" then d else s

/-- UTF-8 encoding of a single character, as byte values. -/
def utf8Bytes (c : Char) : List Nat :=
  let n := c.toNat
  if n < 0x80 then [n]
  else if n < 0x800 then [0xC0 + n / 64, 0x80 + n % 64]
  else if n < 0x10000 then [0xE0 + n / 4096, 0x80 + (n / 64) % 64, 0x80 + n % 64]
  else [0xF0 + n / 262144, 0x80 + (n / 4096) % 64, 0x80 + (n / 64) % 64, 0x80 + n % 64]

/-- The characters `encodeURIComponent` leaves unescaped:
`A-Z a-z 0-9 - _ . ! ~ * ' ( )`. -/
def isUriUnreserved (c : Char) : Bool :=
  (decide (65 ≤ c.toNat) && decide (c.toNat ≤ 90)) ||
  (decide (97 ≤ c.toNat) && decide (c.toNat ≤ 122)) ||
  (decide (48 ≤ c.toNat) && decide (c.toNat ≤ 57)) ||
  c == Char.ofNat 45 || c == Char.ofNat 95 || c == Char.ofNat 46 ||
  c == Char.ofNat 33 || c == Char.ofNat 126 || c == Char.ofNat 42 ||
  c == Char.ofNat 39 || c == Char.ofNat 40 || c == Char.ofNat 41

/-- Uppercase hexadecimal digit. -/
def hexDigitChar (n : Nat) : Char :=
  if n < 10 then Char.ofNat (48 + n) else Char.ofNat (55 + n)

/-- `%XX` percent-escape of one byte. -/
def percentEscape (b : Nat) : String :=
  "%" ++ String.singleton (hexDigitChar (b / 16)) ++ String.singleton (hexDigitChar (b % 16))

/-- JavaScript `encodeURIComponent`. -/
def encodeURIComponent (s : String) : String :=
  String.join (s.toList.map fun c =>
    if isUriUnreserved c then String.singleton c
    else String.join ((utf8Bytes c).map percentEscape))

/-- The fixed backend origin (`const BACKEND_URL` in every route file). -/
def BACKEND_URL : String := "http://localhost:8001"

/-- The backend's response as observed through the Fetch API by these
handlers: status code, the two headers the code reads (`none` = header
absent, so `headers.get` returns `null`), the raw body bytes (used by the
streaming endpoint), and the result of decoding the body as JSON (`none` =
`response.json()` rejects). -/
structure BackendResponse where
  status : Nat
  contentType : Option String
  contentLength : Option String
  bodyBytes : List Nat
  jsonBody : Option Json
deriving Repr

/-- The Fetch API `Response.ok` predicate: status in the range 200-299. -/
def BackendResponse.ok (r : BackendResponse) : Bool :=
  decide (200 ≤ r.status) && decide (r.status < 300)

/-- Outcome of `fetch`: it either resolves to a response or rejects
(network failure, connection refused, ...). -/
inductive FetchOutcome where
  | success : BackendResponse → FetchOutcome
  | failure : FetchOutcome
deriving Repr

/-- The modeled backend: what one `fetch` of a given URL does. -/
def Backend : Type := String → FetchOutcome

/-- Body of an outbound response: a JSON document (`NextResponse.json`) or
a raw byte stream (`new Response(response.body, ...)`). -/
inductive Body where
  | json : Json → Body
  | stream : List Nat → Body
deriving Repr

/-- What one handler invocation produces: the outbound HTTP response
(status, explicitly-set headers, body) plus the instrumentation the spec's
testable properties refer to: the outbound URLs fetched, in order, and the
`console.error` labels logged. -/
structure HandlerResult where
  status : Nat
  headers : List (String × String)
  body : Body
  calls : List String
  logs : List String
deriving Repr

/-- `NextResponse.json({ error: m }, { status })` with no outbound call. -/
def errorBody (m : String) : Body :=
  .json (.obj [("error", .str m)])

/-- `src/app/api/video/info/route.ts`, `GET`. -/
def infoGET (params : String → Option String) (backend : Backend) : HandlerResult :=
  if jsFalsyStr (params "url") then
    { status := 400, headers := [], body := errorBody "URL parameter is required",
      calls := [], logs := [] }
  else
    let url := (params "url").getD ""
    let outUrl := BACKEND_URL ++ "/api/video/info?url=" ++ encodeURIComponent url
    match backend outUrl with
    | .failure =>
        { status := 500, headers := [], body := errorBody "Failed to get video information",
          calls := [outUrl], logs := ["Video info API error:"] }
    | .success r =>
        if r.ok then
          match r.jsonBody with
          | some data =>
              { status := 200, headers := [], body := .json data,
                calls := [outUrl], logs := [] }
          | none =>
              { status := 500, headers := [], body := errorBody "Failed to get video information",
                calls := [outUrl], logs := ["Video info API error:"] }
        else
          let errorData := r.jsonBody.getD (.obj [("detail", .str "Unknown error")])
          match jsGetField errorData "detail" with
          | .error _ =>
              { status := 500, headers := [], body := errorBody "Failed to get video information",
                calls := [outUrl], logs := ["Video info API error:"] }
          | .ok detail =>
              let msg := match detail with
                | some j => if j.truthy then j else .str "Failed to get video info"
                | none => Json.str "Failed to get video info"
              { status := r.status, headers := [], body := .json (.obj [("error", msg)]),
                calls := [outUrl], logs := [] }

/-- `src/app/api/search/route.ts`, `GET`. -/
def searchGET (params : String → Option String) (backend : Backend) : HandlerResult :=
  let maxResults := jsOrDefault (params "max_results") "20"
  if jsFalsyStr (params "q") then
    { status := 400, headers := [], body := errorBody "Query parameter \"q\" is required",
      calls := [], logs := [] }
  else
    let q := (params "q").getD ""
    let outUrl := BACKEND_URL ++ "/api/search?q=" ++ encodeURIComponent q
      ++ "&max_results=" ++ maxResults
    match backend outUrl with
    | .failure =>
        { status := 500, headers := [], body := errorBody "Failed to search videos",
          calls := [outUrl], logs := ["Search API error:"] }
    | .success r =>
        match r.jsonBody with
        | some data =>
            { status := 200, headers := [], body := .json data,
              calls := [outUrl], logs := [] }
        | none =>
            { status := 500, headers := [], body := errorBody "Failed to search videos",
              calls := [outUrl], logs := ["Search API error:"] }

/-- The trending route, `GET` (no inbound parameters). -/
def trendingGET (backend : Backend) : HandlerResult :=
  let outUrl := BACKEND_URL ++ "/api/trending"
  match backend outUrl with
  | .failure =>
      { status := 500, headers := [], body := errorBody "Failed to get trending videos",
        calls := [outUrl], logs := ["Trending API error:"] }
  | .success r =>
      match r.jsonBody with
      | some data =>
          { status := 200, headers := [], body := .json data,
            calls := [outUrl], logs := [] }
      | none =>
          { status := 500, headers := [], body := errorBody "Failed to get trending videos",
            calls := [outUrl], logs := ["Trending API error:"] }

/-- `src/app/api/library/route.ts`, `GET` (no inbound parameters). -/
def libraryGET (backend : Backend) : HandlerResult :=
  let outUrl := BACKEND_URL ++ "/api/library"
  match backend outUrl with
  | .failure =>
      { status := 500, headers := [], body := errorBody "Failed to get library",
        calls := [outUrl], logs := ["Library API error:"] }
  | .success r =>
      match r.jsonBody with
      | some data =>
          { status := 200, headers := [], body := .json data,
            calls := [outUrl], logs := [] }
      | none =>
          { status := 500, headers := [], body := errorBody "Failed to get library",
            calls := [outUrl], logs := ["Library API error:"] }

/-- The library deletion route, `DELETE` (path parameter `filename`). -/
def deleteVideoDELETE (filename : String) (backend : Backend) : HandlerResult :=
  let outUrl := BACKEND_URL ++ "/api/library/" ++ encodeURIComponent filename
  match backend outUrl with
  | .failure =>
      { status := 500, headers := [], body := errorBody "Failed to delete video",
        calls := [outUrl], logs := ["Delete video API error:"] }
  | .success r =>
      match r.jsonBody with
      | some data =>
          { status := 200, headers := [], body := .json data,
            calls := [outUrl], logs := [] }
      | none =>
          { status := 500, headers := [], body := errorBody "Failed to delete video",
            calls := [outUrl], logs := ["Delete video API error:"] }

/-- The streaming route, `GET` (path parameter `filename`). -/
def streamGET (filename : String) (backend : Backend) : HandlerResult :=
  let outUrl := BACKEND_URL ++ "/api/stream/" ++ encodeURIComponent filename
  match backend outUrl with
  | .failure =>
      { status := 500, headers := [], body := errorBody "Failed to stream video",
        calls := [outUrl], logs := ["Stream API error:"] }
  | .success r =>
      if r.ok then
        let contentType := jsOrDefault r.contentType "video/mp4"
        let clHeaders := match r.contentLength with
          | some s => if s == "" then [] else [("Content-Length", s)]
          | none => []
        { status := 200,
          headers := [("Content-Type", contentType)] ++ clHeaders ++ [("Accept-Ranges", "bytes")],
          body := .stream r.bodyBytes,
          calls := [outUrl], logs := [] }
      else
        { status := 404, headers := [], body := errorBody "Video not found",
          calls := [outUrl], logs := [] }

/-! ## Claim theorems -/

/-- C1: for every endpoint with a required inbound parameter (the info
endpoint's `url` query parameter and the search endpoint's `q` query
parameter), invoking the handler with that parameter absent returns a 400
response whose JSON body carries a descriptive error message, and no
outbound request to the backend is made in that execution. -/
theorem C1_missing_required_param_400_no_outbound_call
    (params : String → Option String) (backend : Backend)
    (hu : params "url" = none) (hq : params "q" = none) :
    infoGET params backend =
      { status := 400, headers := [], body := errorBody "URL parameter is required",
        calls := [], logs := [] } ∧
    searchGET params backend =
      { status := 400, headers := [], body := errorBody "Query parameter \"q\" is required",
        calls := [], logs := [] } := by
  constructor
  · simp [infoGET, hu, jsFalsyStr]
  · simp [searchGET, hq, jsFalsyStr]

/-- Witness for C1: concrete request with both parameters absent. -/
theorem C1_missing_required_param_400_no_outbound_call_witness :
    infoGET (fun _ => none) (fun _ => .failure) =
      { status := 400, headers := [], body := errorBody "URL parameter is required",
        calls := [], logs := [] } ∧
    searchGET (fun _ => none) (fun _ => .failure) =
      { status := 400, headers := [], body := errorBody "Query parameter \"q\" is required",
        calls := [], logs := [] } :=
  C1_missing_required_param_400_no_outbound_call (fun _ => none) (fun _ => .failure) rfl rfl

/-- C3: for the streaming endpoint, every backend response with a non-2xx
status yields exactly status 404 with JSON body
`{"error": "Video not found"}`; the backend's actual status code is never
reflected in the outbound response (the conclusion is independent of
`r.status`). -/
theorem C3_stream_non2xx_fixed_404
    (filename : String) (backend : Backend) (r : BackendResponse)
    (hb : backend (BACKEND_URL ++ "/api/stream/" ++ encodeURIComponent filename) = .success r)
    (hok : r.ok = false) :
    streamGET filename backend =
      { status := 404, headers := [], body := errorBody "Video not found",
        calls := [BACKEND_URL ++ "/api/stream/" ++ encodeURIComponent filename], logs := [] } := by
  simp [streamGET, hb, hok]

/-- Witness for C3: backend answers 500, outbound response is the fixed
404 "Video not found". -/
theorem C3_stream_non2xx_fixed_404_witness :
    streamGET "clip.mp4"
      (fun _ => .success { status := 500, contentType := none, contentLength := none,
                           bodyBytes := [], jsonBody := none }) =
      { status := 404, headers := [], body := errorBody "Video not found",
        calls := [BACKEND_URL ++ "/api/stream/" ++ encodeURIComponent "clip.mp4"], logs := [] } :=
  C3_stream_non2xx_fixed_404 "clip.mp4" _ _ rfl rfl

/-- C8: for the search endpoint, calling with query parameters `q=test`
and `max_results=5` constructs exactly one outbound call to
`/api/search?q=test&max_results=5` on the backend origin, and when the
backend responds with a JSON body, that JSON value is returned verbatim as
the outbound JSON body with status 200. -/
theorem C8_search_concrete_url_and_verbatim_body
    (params : String → Option String) (backend : Backend) (r : BackendResponse) (j : Json)
    (hq : params "q" = some "test") (hm : params "max_results" = some "5")
    (hb : backend "http://localhost:8001/api/search?q=test&max_results=5" = .success r)
    (hj : r.jsonBody = some j) :
    searchGET params backend =
      { status := 200, headers := [], body := .json j,
        calls := ["http://localhost:8001/api/search?q=test&max_results=5"], logs := [] } := by
  have hurl : BACKEND_URL ++ "/api/search?q=" ++ encodeURIComponent "test"
      ++ "&max_results=" ++ jsOrDefault (some "5") "20"
      = "http://localhost:8001/api/search?q=test&max_results=5" := by decide
  simp [searchGET, hq, hm, jsFalsyStr, hurl, hb, hj]

/-- Witness for C8: concrete parameters and a concrete backend JSON body. -/
theorem C8_search_concrete_url_and_verbatim_body_witness :
    searchGET (fun k => if k == "q" then some "test" else
                        if k == "max_results" then some "5" else none)
      (fun _ => .success { status := 200, contentType := none, contentLength := none,
                           bodyBytes := [], jsonBody := some (.arr [.str "result"]) }) =
      { status := 200, headers := [], body := .json (.arr [.str "result"]),
        calls := ["http://localhost:8001/api/search?q=test&max_results=5"], logs := [] } :=
  C8_search_concrete_url_and_verbatim_body _ _ _ _ rfl rfl rfl rfl

/-- C9: for the search endpoint, when the inbound request omits the
`max_results` query parameter or supplies it empty, the outbound URL uses
`max_results=20`. -/
theorem C9_search_max_results_defaults_to_20
    (params : String → Option String) (backend : Backend) (q : String)
    (hq : params "q" = some q) (hqne : q ≠ "")
    (hm : params "max_results" = none ∨ params "max_results" = some "") :
    (searchGET params backend).calls =
      [BACKEND_URL ++ "/api/search?q=" ++ encodeURIComponent q ++ "&max_results=" ++ "20"] := by
  rcases hm with hm | hm <;>
    cases hcall : backend (BACKEND_URL ++ "/api/search?q=" ++ encodeURIComponent q
      ++ "&max_results=" ++ "20") <;>
    simp [searchGET, hq, hqne, hm, jsFalsyStr, jsOrDefault, hcall] <;>
    rename_i r <;> cases r.jsonBody <;> simp

/-- Witness for C9: `max_results` absent, `q=test`; the recorded outbound
URL carries `max_results=20`. -/
theorem C9_search_max_results_defaults_to_20_witness :
    (searchGET (fun k => if k == "q" then some "test" else none) (fun _ => .failure)).calls =
      [BACKEND_URL ++ "/api/search?q=" ++ encodeURIComponent "test" ++ "&max_results=" ++ "20"] :=
  C9_search_max_results_defaults_to_20 _ _ "test" rfl (by decide) (Or.inl rfl)

/-- C2 counterexample: the claim quantifies over every string `d` in the
`detail` field, but for `d = ""` (falsy in JavaScript) the code's
`errorData.detail || 'Failed to get video info'` takes the fallback: backend
status 422 with body `{"detail":""}` yields body
`{"error":"Failed to get video info"}`, not `{"error":""}` as the claim
requires. -/
theorem C2_detail_empty_string_counterexample :
    infoGET (fun k => if k == "url" then some "x" else none)
      (fun _ => .success { status := 422, contentType := none, contentLength := none,
                           bodyBytes := [], jsonBody := some (.obj [("detail", .str "")]) }) =
      { status := 422, headers := [], body := errorBody "Failed to get video info",
        calls := [BACKEND_URL ++ "/api/video/info?url=" ++ encodeURIComponent "x"], logs := [] } ∧
    errorBody "Failed to get video info" ≠ errorBody "" := by
  constructor
  · rfl
  · simp [errorBody]

/-- C2 amended: for the info endpoint, for every backend response with a
non-2xx status: if the backend body decodes as JSON with a field `detail`
equal to a *non-empty* string d, the outbound response has the backend's
original status code and body `{"error": d}`; if the backend body is not
decodable as JSON, the outbound response has the backend's original status
code and body `{"error": "Unknown error"}`. -/
theorem C2_amended_info_error_translation
    (params : String → Option String) (url : String)
    (hp : params "url" = some url) (hu : url ≠ "")
    (b1 : Backend) (r1 : BackendResponse)
    (hb1 : b1 (BACKEND_URL ++ "/api/video/info?url=" ++ encodeURIComponent url) = .success r1)
    (hok1 : r1.ok = false)
    (fields : List (String × Json)) (d : String)
    (hj1 : r1.jsonBody = some (.obj fields))
    (hd : fields.lookup "detail" = some (.str d)) (hdne : d ≠ "")
    (b2 : Backend) (r2 : BackendResponse)
    (hb2 : b2 (BACKEND_URL ++ "/api/video/info?url=" ++ encodeURIComponent url) = .success r2)
    (hok2 : r2.ok = false) (hj2 : r2.jsonBody = none) :
    infoGET params b1 =
      { status := r1.status, headers := [], body := errorBody d,
        calls := [BACKEND_URL ++ "/api/video/info?url=" ++ encodeURIComponent url], logs := [] } ∧
    infoGET params b2 =
      { status := r2.status, headers := [], body := errorBody "Unknown error",
        calls := [BACKEND_URL ++ "/api/video/info?url=" ++ encodeURIComponent url], logs := [] } := by
  constructor
  · simp [infoGET, hp, hu, jsFalsyStr, hb1, hok1, hj1, jsGetField, hd, Json.truthy, hdne,
      errorBody]
  · simp [infoGET, hp, hu, jsFalsyStr, hb2, hok2, hj2, jsGetField, Json.truthy, errorBody,
      List.lookup]

/-- Witness for C2 amended: the spec's two examples — backend 422 with
`{"detail":"invalid url"}` and backend 500 with a non-JSON body. -/
theorem C2_amended_info_error_translation_witness :
    infoGET (fun k => if k == "url" then some "x" else none)
      (fun _ => .success { status := 422, contentType := none, contentLength := none,
                           bodyBytes := [],
                           jsonBody := some (.obj [("detail", .str "invalid url")]) }) =
      { status := 422, headers := [], body := errorBody "invalid url",
        calls := [BACKEND_URL ++ "/api/video/info?url=" ++ encodeURIComponent "x"],
        logs := [] } ∧
    infoGET (fun k => if k == "url" then some "x" else none)
      (fun _ => .success { status := 500, contentType := none, contentLength := none,
                           bodyBytes := [110, 111], jsonBody := none }) =
      { status := 500, headers := [], body := errorBody "Unknown error",
        calls := [BACKEND_URL ++ "/api/video/info?url=" ++ encodeURIComponent "x"],
        logs := [] } :=
  C2_amended_info_error_translation _ "x" rfl (by decide) _
    { status := 422, contentType := none, contentLength := none,
      bodyBytes := [], jsonBody := some (.obj [("detail", .str "invalid url")]) } rfl rfl
    [("detail", .str "invalid url")] "invalid url" rfl rfl (by decide) _
    { status := 500, contentType := none, contentLength := none,
      bodyBytes := [110, 111], jsonBody := none } rfl rfl rfl

/-- C10: for the info endpoint, when the backend responds non-2xx with a
body that decodes as a JSON object whose `detail` field is absent or falsy
(missing, null, the empty string, false, or 0), the outbound body is
`{"error": "Failed to get video info"}` with the backend's status — a third
fallback message distinct from the "Unknown error" used when decoding
fails. -/
theorem C10_info_falsy_detail_third_fallback
    (params : String → Option String) (backend : Backend) (url : String)
    (hp : params "url" = some url) (hu : url ≠ "")
    (r : BackendResponse) (fields : List (String × Json))
    (hb : backend (BACKEND_URL ++ "/api/video/info?url=" ++ encodeURIComponent url) = .success r)
    (hok : r.ok = false) (hj : r.jsonBody = some (.obj fields))
    (hd : fields.lookup "detail" = none ∨ fields.lookup "detail" = some .null ∨
          fields.lookup "detail" = some (.str "") ∨ fields.lookup "detail" = some (.bool false) ∨
          fields.lookup "detail" = some (.num 0)) :
    infoGET params backend =
      { status := r.status, headers := [], body := errorBody "Failed to get video info",
        calls := [BACKEND_URL ++ "/api/video/info?url=" ++ encodeURIComponent url],
        logs := [] } ∧
    errorBody "Failed to get video info" ≠ errorBody "Unknown error" := by
  refine ⟨?_, by simp [errorBody]⟩
  rcases hd with hd | hd | hd | hd | hd <;>
    simp [infoGET, hp, hu, jsFalsyStr, hb, hok, hj, jsGetField, hd, Json.truthy, errorBody]

/-- Witness for C10: backend 404 with JSON body `{}` (no `detail` field)
yields status 404 and the third fallback message. -/
theorem C10_info_falsy_detail_third_fallback_witness :
    infoGET (fun k => if k == "url" then some "x" else none)
      (fun _ => .success { status := 404, contentType := none, contentLength := none,
                           bodyBytes := [], jsonBody := some (.obj []) }) =
      { status := 404, headers := [], body := errorBody "Failed to get video info",
        calls := [BACKEND_URL ++ "/api/video/info?url=" ++ encodeURIComponent "x"],
        logs := [] } ∧
    errorBody "Failed to get video info" ≠ errorBody "Unknown error" :=
  C10_info_falsy_detail_third_fallback _ _ "x" rfl (by decide)
    { status := 404, contentType := none, contentLength := none,
      bodyBytes := [], jsonBody := some (.obj []) } [] rfl rfl rfl (Or.inl rfl)

/-- C4 counterexample: the search handler never inspects the backend
status, so a backend 500 whose body is decodable JSON is relayed to the
caller as a 200 success with that body — contradicting "no non-2xx backend
response is relayed to the caller as a 200 success". -/
theorem C4_non2xx_relayed_as_200_counterexample :
    searchGET (fun k => if k == "q" then some "test" else none)
      (fun _ => .success { status := 500, contentType := none, contentLength := none,
                           bodyBytes := [], jsonBody := some (.obj [("hit", .bool true)]) }) =
      { status := 200, headers := [], body := .json (.obj [("hit", .bool true)]),
        calls := [BACKEND_URL ++ "/api/search?q=" ++ encodeURIComponent "test"
          ++ "&max_results=" ++ "20"], logs := [] } ∧
    ¬ (200 ≤ 500 ∧ 500 < 300) := by
  exact ⟨rfl, by decide⟩

/-- C4 amended: only the streaming endpoint (fixed 404) and the info
endpoint propagate a non-2xx backend status. The info endpoint answers
with the backend's original status and a best-effort extracted message
whenever the body decodes to any JSON value other than null, and likewise
(with "Unknown error") when the body is not decodable as JSON; when the
body decodes to JSON null, the `errorData.detail` access throws and the
outer catch answers 500 with the generic message instead. The search,
trending, library, and delete handlers decode and return the backend body
with status 200 regardless of the backend status, so a non-2xx backend
response with a decodable JSON body is relayed to the caller as a 200
success by those four handlers. -/
theorem C4_amended_status_propagation_by_endpoint
    (f : String) (bs : Backend) (rs : BackendResponse)
    (hbs : bs (BACKEND_URL ++ "/api/stream/" ++ encodeURIComponent f) = .success rs)
    (hoks : rs.ok = false)
    (pi : String → Option String) (u : String) (hpu : pi "url" = some u) (hu : u ≠ "")
    (bi : Backend) (ri : BackendResponse)
    (hbi : bi (BACKEND_URL ++ "/api/video/info?url=" ++ encodeURIComponent u) = .success ri)
    (hoki : ri.ok = false) (ji : Json)
    (hji : ri.jsonBody = some ji) (hjine : ji ≠ Json.null)
    (bi0 : Backend) (ri0 : BackendResponse)
    (hbi0 : bi0 (BACKEND_URL ++ "/api/video/info?url=" ++ encodeURIComponent u) = .success ri0)
    (hoki0 : ri0.ok = false) (hji0 : ri0.jsonBody = some Json.null)
    (bi1 : Backend) (ri1 : BackendResponse)
    (hbi1 : bi1 (BACKEND_URL ++ "/api/video/info?url=" ++ encodeURIComponent u) = .success ri1)
    (hoki1 : ri1.ok = false) (hji1 : ri1.jsonBody = none)
    (ps : String → Option String) (q : String) (hpq : ps "q" = some q) (hqne : q ≠ "")
    (m : String) (hpm : ps "max_results" = some m) (hmne : m ≠ "")
    (bq : Backend) (rq : BackendResponse)
    (hbq : bq (BACKEND_URL ++ "/api/search?q=" ++ encodeURIComponent q
      ++ "&max_results=" ++ m) = .success rq)
    (jq : Json) (hjq : rq.jsonBody = some jq)
    (bt : Backend) (rt : BackendResponse)
    (hbt : bt (BACKEND_URL ++ "/api/trending") = .success rt)
    (jt : Json) (hjt : rt.jsonBody = some jt)
    (bl : Backend) (rl : BackendResponse)
    (hbl : bl (BACKEND_URL ++ "/api/library") = .success rl)
    (jl : Json) (hjl : rl.jsonBody = some jl)
    (fd : String) (bd : Backend) (rd : BackendResponse)
    (hbd : bd (BACKEND_URL ++ "/api/library/" ++ encodeURIComponent fd) = .success rd)
    (jd : Json) (hjd : rd.jsonBody = some jd) :
    (streamGET f bs).status = 404 ∧
    (infoGET pi bi).status = ri.status ∧
    (infoGET pi bi0).status = 500 ∧
    (infoGET pi bi0).body = errorBody "Failed to get video information" ∧
    (infoGET pi bi0).logs = ["Video info API error:"] ∧
    (infoGET pi bi1).status = ri1.status ∧
    (infoGET pi bi1).body = errorBody "Unknown error" ∧
    (searchGET ps bq).status = 200 ∧ (searchGET ps bq).body = .json jq ∧
    (trendingGET bt).status = 200 ∧ (trendingGET bt).body = .json jt ∧
    (libraryGET bl).status = 200 ∧ (libraryGET bl).body = .json jl ∧
    (deleteVideoDELETE fd bd).status = 200 ∧ (deleteVideoDELETE fd bd).body = .json jd := by
  refine ⟨?_, ?_, ?_, ?_, ?_, ?_, ?_, ?_, ?_, ?_, ?_, ?_, ?_, ?_, ?_⟩
  · simp [streamGET, hbs, hoks]
  · cases ji with
    | null => exact absurd rfl hjine
    | bool b => simp [infoGET, hpu, hu, jsFalsyStr, hbi, hoki, hji, jsGetField]
    | num n => simp [infoGET, hpu, hu, jsFalsyStr, hbi, hoki, hji, jsGetField]
    | str s => simp [infoGET, hpu, hu, jsFalsyStr, hbi, hoki, hji, jsGetField]
    | arr a => simp [infoGET, hpu, hu, jsFalsyStr, hbi, hoki, hji, jsGetField]
    | obj fs => simp [infoGET, hpu, hu, jsFalsyStr, hbi, hoki, hji, jsGetField]
  · simp [infoGET, hpu, hu, jsFalsyStr, hbi0, hoki0, hji0, jsGetField]
  · simp [infoGET, hpu, hu, jsFalsyStr, hbi0, hoki0, hji0, jsGetField, errorBody]
  · simp [infoGET, hpu, hu, jsFalsyStr, hbi0, hoki0, hji0, jsGetField]
  · simp [infoGET, hpu, hu, jsFalsyStr, hbi1, hoki1, hji1, jsGetField, List.lookup,
      Json.truthy]
  · simp [infoGET, hpu, hu, jsFalsyStr, hbi1, hoki1, hji1, jsGetField, List.lookup,
      Json.truthy, errorBody]
  all_goals
    simp [searchGET, trendingGET, libraryGET, deleteVideoDELETE, hpq, hqne, hpm, hmne,
      jsFalsyStr, jsOrDefault, hbq, hjq, hbt, hjt, hbl, hjl, hbd, hjd]

/-- Witness for C4 amended: every backend answers 500; the info endpoint
keeps the 500 for an object body, answers 500 with the generic message for
a JSON null body, keeps a 503 with "Unknown error" for an undecodable
body; the search, trending, library and delete responses come back as
200. -/
theorem C4_amended_status_propagation_by_endpoint_witness :
    (streamGET "v"
      (fun _ => .success { status := 500, contentType := none, contentLength := none,
                           bodyBytes := [], jsonBody := none })).status = 404 ∧
    (infoGET (fun k => if k == "url" then some "x" else none)
      (fun _ => .success { status := 500, contentType := none, contentLength := none,
                           bodyBytes := [],
                           jsonBody := some (.obj [("detail", .str "boom")]) })).status = 500 ∧
    (infoGET (fun k => if k == "url" then some "x" else none)
      (fun _ => .success { status := 404, contentType := none, contentLength := none,
                           bodyBytes := [], jsonBody := some Json.null })).status = 500 ∧
    (infoGET (fun k => if k == "url" then some "x" else none)
      (fun _ => .success { status := 404, contentType := none, contentLength := none,
                           bodyBytes := [], jsonBody := some Json.null })).body
      = errorBody "Failed to get video information" ∧
    (infoGET (fun k => if k == "url" then some "x" else none)
      (fun _ => .success { status := 404, contentType := none, contentLength := none,
                           bodyBytes := [], jsonBody := some Json.null })).logs
      = ["Video info API error:"] ∧
    (infoGET (fun k => if k == "url" then some "x" else none)
      (fun _ => .success { status := 503, contentType := none, contentLength := none,
                           bodyBytes := [104], jsonBody := none })).status = 503 ∧
    (infoGET (fun k => if k == "url" then some "x" else none)
      (fun _ => .success { status := 503, contentType := none, contentLength := none,
                           bodyBytes := [104], jsonBody := none })).body = errorBody "Unknown error" ∧
    (searchGET (fun k => if k == "q" then some "test" else
                         if k == "max_results" then some "5" else none)
      (fun _ => .success { status := 500, contentType := none, contentLength := none,
                           bodyBytes := [], jsonBody := some (.num 1) })).status = 200 ∧
    (searchGET (fun k => if k == "q" then some "test" else
                         if k == "max_results" then some "5" else none)
      (fun _ => .success { status := 500, contentType := none, contentLength := none,
                           bodyBytes := [], jsonBody := some (.num 1) })).body = .json (.num 1) ∧
    (trendingGET
      (fun _ => .success { status := 500, contentType := none, contentLength := none,
                           bodyBytes := [], jsonBody := some (.num 2) })).status = 200 ∧
    (trendingGET
      (fun _ => .success { status := 500, contentType := none, contentLength := none,
                           bodyBytes := [], jsonBody := some (.num 2) })).body = .json (.num 2) ∧
    (libraryGET
      (fun _ => .success { status := 500, contentType := none, contentLength := none,
                           bodyBytes := [], jsonBody := some (.num 3) })).status = 200 ∧
    (libraryGET
      (fun _ => .success { status := 500, contentType := none, contentLength := none,
                           bodyBytes := [], jsonBody := some (.num 3) })).body = .json (.num 3) ∧
    (deleteVideoDELETE "v"
      (fun _ => .success { status := 500, contentType := none, contentLength := none,
                           bodyBytes := [], jsonBody := some (.num 4) })).status = 200 ∧
    (deleteVideoDELETE "v"
      (fun _ => .success { status := 500, contentType := none, contentLength := none,
                           bodyBytes := [], jsonBody := some (.num 4) })).body = .json (.num 4) :=
  C4_amended_status_propagation_by_endpoint
    "v" _
    { status := 500, contentType := none, contentLength := none,
      bodyBytes := [], jsonBody := none } rfl rfl
    _ "x" rfl (by decide) _
    { status := 500, contentType := none, contentLength := none,
      bodyBytes := [], jsonBody := some (.obj [("detail", .str "boom")]) } rfl rfl
    (.obj [("detail", .str "boom")]) rfl (by simp)
    _ { status := 404, contentType := none, contentLength := none,
                           bodyBytes := [], jsonBody := some Json.null } rfl rfl rfl
    _ { status := 503, contentType := none, contentLength := none,
                           bodyBytes := [104], jsonBody := none } rfl rfl rfl
    _ "test" rfl (by decide) "5" rfl (by decide) _
    { status := 500, contentType := none, contentLength := none,
      bodyBytes := [], jsonBody := some (.num 1) } rfl (.num 1) rfl
    _ { status := 500, contentType := none, contentLength := none,
                           bodyBytes := [], jsonBody := some (.num 2) } rfl (.num 2) rfl
    _ { status := 500, contentType := none, contentLength := none,
                           bodyBytes := [], jsonBody := some (.num 3) } rfl (.num 3) rfl
    "v" _ { status := 500, contentType := none, contentLength := none,
                           bodyBytes := [], jsonBody := some (.num 4) } rfl (.num 4) rfl

/-- C5 counterexample: the search handler interpolates `max_results` into
the outbound URL without `encodeURIComponent`. With `q=test` and
`max_results="a b"` the recorded outbound URL contains the raw `a b`,
which differs from the URL the claim requires, whose `max_results` value
would be the percent-encoded `a%20b`. -/
theorem C5_max_results_not_percent_encoded_counterexample :
    (searchGET (fun k => if k == "q" then some "test" else
                         if k == "max_results" then some "a b" else none)
      (fun _ => .failure)).calls =
      ["http://localhost:8001/api/search?q=test&max_results=a b"] ∧
    encodeURIComponent "a b" = "a%20b" ∧
    ("http://localhost:8001/api/search?q=test&max_results=a b" : String) ≠
      BACKEND_URL ++ "/api/search?q=" ++ encodeURIComponent "test"
        ++ "&max_results=" ++ encodeURIComponent "a b" := by
  refine ⟨rfl, by decide, by decide⟩

/-- C5 amended: each endpoint's outbound URL is the concatenation of the
fixed backend origin, the endpoint-specific path, and its parameter
values, where the info endpoint's `url`, the streaming endpoint's
`filename`, the delete endpoint's `filename`, and the search endpoint's
`q` are percent-encoded, but the search endpoint's `max_results` value is
interpolated raw (not percent-encoded). -/
theorem C5_amended_outbound_url_construction
    (pi : String → Option String) (u : String) (hpu : pi "url" = some u) (hu : u ≠ "")
    (bi : Backend)
    (ps : String → Option String) (q : String) (hpq : ps "q" = some q) (hqne : q ≠ "")
    (m : String) (hpm : ps "max_results" = some m) (hmne : m ≠ "")
    (bq : Backend)
    (f : String) (bs : Backend) (fd : String) (bd : Backend) (bt bl : Backend) :
    (infoGET pi bi).calls =
      [BACKEND_URL ++ "/api/video/info?url=" ++ encodeURIComponent u] ∧
    (searchGET ps bq).calls =
      [BACKEND_URL ++ "/api/search?q=" ++ encodeURIComponent q ++ "&max_results=" ++ m] ∧
    (streamGET f bs).calls =
      [BACKEND_URL ++ "/api/stream/" ++ encodeURIComponent f] ∧
    (deleteVideoDELETE fd bd).calls =
      [BACKEND_URL ++ "/api/library/" ++ encodeURIComponent fd] ∧
    (trendingGET bt).calls = [BACKEND_URL ++ "/api/trending"] ∧
    (libraryGET bl).calls = [BACKEND_URL ++ "/api/library"] := by
  refine ⟨?_, ?_, ?_, ?_, ?_, ?_⟩
  · cases hc : bi (BACKEND_URL ++ "/api/video/info?url=" ++ encodeURIComponent u) with
    | failure => simp [infoGET, hpu, hu, jsFalsyStr, hc]
    | success r =>
      by_cases hok : r.ok = true
      · cases hjb : r.jsonBody <;> simp [infoGET, hpu, hu, jsFalsyStr, hc, hok, hjb]
      · rw [Bool.not_eq_true] at hok
        cases hjb : r.jsonBody with
        | none => simp [infoGET, hpu, hu, jsFalsyStr, hc, hok, hjb, jsGetField, List.lookup]
        | some j =>
          cases hgf : jsGetField j "detail" <;>
            simp [infoGET, hpu, hu, jsFalsyStr, hc, hok, hjb, hgf]
  · cases hc : bq (BACKEND_URL ++ "/api/search?q=" ++ encodeURIComponent q
        ++ "&max_results=" ++ m) with
    | failure => simp [searchGET, hpq, hqne, hpm, hmne, jsFalsyStr, jsOrDefault, hc]
    | success r =>
      cases hjb : r.jsonBody <;>
        simp [searchGET, hpq, hqne, hpm, hmne, jsFalsyStr, jsOrDefault, hc, hjb]
  · cases hc : bs (BACKEND_URL ++ "/api/stream/" ++ encodeURIComponent f) with
    | failure => simp [streamGET, hc]
    | success r => by_cases hok : r.ok = true <;> simp [streamGET, hc, hok]
  · cases hc : bd (BACKEND_URL ++ "/api/library/" ++ encodeURIComponent fd) with
    | failure => simp [deleteVideoDELETE, hc]
    | success r => cases hjb : r.jsonBody <;> simp [deleteVideoDELETE, hc, hjb]
  · cases hc : bt (BACKEND_URL ++ "/api/trending") with
    | failure => simp [trendingGET, hc]
    | success r => cases hjb : r.jsonBody <;> simp [trendingGET, hc, hjb]
  · cases hc : bl (BACKEND_URL ++ "/api/library") with
    | failure => simp [libraryGET, hc]
    | success r => cases hjb : r.jsonBody <;> simp [libraryGET, hc, hjb]

/-- Witness for C5 amended: concrete parameter values containing a space;
the recorded outbound URLs percent-encode everything except
`max_results`. -/
theorem C5_amended_outbound_url_construction_witness :
    (infoGET (fun k => if k == "url" then some "a b" else none) (fun _ => .failure)).calls =
      [BACKEND_URL ++ "/api/video/info?url=" ++ encodeURIComponent "a b"] ∧
    (searchGET (fun k => if k == "q" then some "a b" else
                         if k == "max_results" then some "a b" else none)
      (fun _ => .failure)).calls =
      [BACKEND_URL ++ "/api/search?q=" ++ encodeURIComponent "a b"
        ++ "&max_results=" ++ "a b"] ∧
    (streamGET "a b" (fun _ => .failure)).calls =
      [BACKEND_URL ++ "/api/stream/" ++ encodeURIComponent "a b"] ∧
    (deleteVideoDELETE "a b" (fun _ => .failure)).calls =
      [BACKEND_URL ++ "/api/library/" ++ encodeURIComponent "a b"] ∧
    (trendingGET (fun _ => .failure)).calls = [BACKEND_URL ++ "/api/trending"] ∧
    (libraryGET (fun _ => .failure)).calls = [BACKEND_URL ++ "/api/library"] :=
  C5_amended_outbound_url_construction
    _ "a b" rfl (by decide) _
    _ "a b" rfl (by decide) "a b" rfl (by decide) _
    "a b" _ "a b" _ _ _

/-- C6 counterexample: the streaming handler guards the Content-Length
header with JavaScript truthiness (`if (contentLength)`), so a backend 200
whose `content-length` header is present but empty is forwarded *without*
a Content-Length header, although the claim requires "Content-Length equal
to the backend's content-length header when present". -/
theorem C6_empty_content_length_dropped_counterexample :
    (streamGET "v"
      (fun _ => .success { status := 200, contentType := some "video/webm",
                           contentLength := some "", bodyBytes := [7],
                           jsonBody := none })).headers =
      [("Content-Type", "video/webm"), ("Accept-Ranges", "bytes")] ∧
    ("Content-Length", "") ∉
      (streamGET "v"
        (fun _ => .success { status := 200, contentType := some "video/webm",
                             contentLength := some "", bodyBytes := [7],
                             jsonBody := none })).headers := by
  refine ⟨rfl, ?_⟩
  intro hmem
  simp only [streamGET, BackendResponse.ok, jsOrDefault] at hmem
  revert hmem
  decide

/-- C6 amended: for the streaming endpoint, every backend response with a
2xx status yields an outbound response of status 200 whose body is the
backend's body byte-for-byte, with an added `Accept-Ranges: bytes` header;
Content-Type equals the backend's content-type header when that header is
present and non-empty and defaults to `video/mp4` when it is absent;
Content-Length equals the backend's content-length header when present and
non-empty, and is omitted when the header is absent or empty. -/
theorem C6_amended_stream_success_forwarding
    (f : String) (b : Backend) (r : BackendResponse)
    (hb : b (BACKEND_URL ++ "/api/stream/" ++ encodeURIComponent f) = .success r)
    (hok : r.ok = true) :
    (streamGET f b).status = 200 ∧
    (streamGET f b).body = .stream r.bodyBytes ∧
    ("Accept-Ranges", "bytes") ∈ (streamGET f b).headers ∧
    (∀ s, r.contentType = some s → s ≠ "" → ("Content-Type", s) ∈ (streamGET f b).headers) ∧
    (r.contentType = none → ("Content-Type", "video/mp4") ∈ (streamGET f b).headers) ∧
    (∀ s, r.contentLength = some s → s ≠ "" →
      ("Content-Length", s) ∈ (streamGET f b).headers) ∧
    ((r.contentLength = none ∨ r.contentLength = some "") →
      ∀ s, ("Content-Length", s) ∉ (streamGET f b).headers) := by
  have hres : streamGET f b =
      { status := 200,
        headers := [("Content-Type", jsOrDefault r.contentType "video/mp4")] ++
          (match r.contentLength with
           | some s => if s == "" then [] else [("Content-Length", s)]
           | none => []) ++ [("Accept-Ranges", "bytes")],
        body := .stream r.bodyBytes,
        calls := [BACKEND_URL ++ "/api/stream/" ++ encodeURIComponent f], logs := [] } := by
    simp [streamGET, hb, hok]
  refine ⟨by rw [hres], by rw [hres], ?_, ?_, ?_, ?_, ?_⟩
  · rw [hres]; simp
  · intro s hct hs; rw [hres, hct]; simp [jsOrDefault, hs]
  · intro hct; rw [hres, hct]; simp [jsOrDefault]
  · intro s hcl hs; rw [hres, hcl]; simp [hs]
  · rintro (hcl | hcl) s <;> rw [hres, hcl] <;> simp

/-- Witness for C6 amended: the spec's example — backend 200 with
`content-type: video/webm` and `content-length: 1024`. -/
theorem C6_amended_stream_success_forwarding_witness :
    (streamGET "v"
      (fun _ => .success { status := 200, contentType := some "video/webm",
                           contentLength := some "1024", bodyBytes := [1, 2, 3],
                           jsonBody := none })).status = 200 ∧
    (streamGET "v"
      (fun _ => .success { status := 200, contentType := some "video/webm",
                           contentLength := some "1024", bodyBytes := [1, 2, 3],
                           jsonBody := none })).body = .stream [1, 2, 3] ∧
    ("Accept-Ranges", "bytes") ∈
      (streamGET "v"
        (fun _ => .success { status := 200, contentType := some "video/webm",
                             contentLength := some "1024", bodyBytes := [1, 2, 3],
                             jsonBody := none })).headers ∧
    ("Content-Type", "video/webm") ∈
      (streamGET "v"
        (fun _ => .success { status := 200, contentType := some "video/webm",
                             contentLength := some "1024", bodyBytes := [1, 2, 3],
                             jsonBody := none })).headers ∧
    ("Content-Length", "1024") ∈
      (streamGET "v"
        (fun _ => .success { status := 200, contentType := some "video/webm",
                             contentLength := some "1024", bodyBytes := [1, 2, 3],
                             jsonBody := none })).headers := by
  have h := C6_amended_stream_success_forwarding "v"
    (fun _ => .success { status := 200, contentType := some "video/webm",
                         contentLength := some "1024", bodyBytes := [1, 2, 3],
                         jsonBody := none })
    { status := 200, contentType := some "video/webm", contentLength := some "1024",
      bodyBytes := [1, 2, 3], jsonBody := none } rfl rfl
  exact ⟨h.1, h.2.1, h.2.2.1, h.2.2.2.1 "video/webm" rfl (by decide),
    h.2.2.2.2.2.1 "1024" rfl (by decide)⟩

/-- C7 counterexample: for the info endpoint, a backend 422 whose body is
not decodable JSON raises an exception inside `response.json()` that the
inner `.catch` absorbs: the outbound response carries the backend's status
422 with `{"error":"Unknown error"}` and nothing is logged — not the 500
with the endpoint's fixed generic message the claim requires for every
body-decoding exception. -/
theorem C7_info_error_branch_decode_not_500_counterexample :
    infoGET (fun k => if k == "url" then some "x" else none)
      (fun _ => .success { status := 422, contentType := none, contentLength := none,
                           bodyBytes := [104], jsonBody := none }) =
      { status := 422, headers := [], body := errorBody "Unknown error",
        calls := [BACKEND_URL ++ "/api/video/info?url=" ++ encodeURIComponent "x"],
        logs := [] } ∧
    (422 : Nat) ≠ 500 :=
  ⟨rfl, by decide⟩

/-- C7 amended: for every endpoint, an exception during the outbound call
is caught, logged with the endpoint-specific label, and converted to a 500
response with the endpoint's fixed generic message; likewise an exception
while decoding the body on the success path (search, trending, library,
delete, and the info endpoint's 2xx branch). The one exception is the info
endpoint's non-2xx branch, where a body-decoding failure is absorbed by an
inner catch into `{"error":"Unknown error"}` with the backend's original
status and no log entry. No exception escapes a handler (every handler is
a total function of its inputs in this model). -/
theorem C7_amended_exception_handling
    (pi : String → Option String) (u : String) (hpu : pi "url" = some u) (hu : u ≠ "")
    (ps : String → Option String) (q : String) (hpq : ps "q" = some q) (hqne : q ≠ "")
    (m : String) (hpm : ps "max_results" = some m) (hmne : m ≠ "")
    (f fd : String)
    (bi bq bt bl bd bs : Backend)
    (hbi : bi (BACKEND_URL ++ "/api/video/info?url=" ++ encodeURIComponent u) = .failure)
    (hbq : bq (BACKEND_URL ++ "/api/search?q=" ++ encodeURIComponent q
      ++ "&max_results=" ++ m) = .failure)
    (hbt : bt (BACKEND_URL ++ "/api/trending") = .failure)
    (hbl : bl (BACKEND_URL ++ "/api/library") = .failure)
    (hbd : bd (BACKEND_URL ++ "/api/library/" ++ encodeURIComponent fd) = .failure)
    (hbs : bs (BACKEND_URL ++ "/api/stream/" ++ encodeURIComponent f) = .failure)
    (bi2 : Backend) (ri2 : BackendResponse)
    (hbi2 : bi2 (BACKEND_URL ++ "/api/video/info?url=" ++ encodeURIComponent u) = .success ri2)
    (hoki2 : ri2.ok = true) (hji2 : ri2.jsonBody = none)
    (bq2 : Backend) (rq2 : BackendResponse)
    (hbq2 : bq2 (BACKEND_URL ++ "/api/search?q=" ++ encodeURIComponent q
      ++ "&max_results=" ++ m) = .success rq2) (hjq2 : rq2.jsonBody = none)
    (bt2 : Backend) (rt2 : BackendResponse)
    (hbt2 : bt2 (BACKEND_URL ++ "/api/trending") = .success rt2) (hjt2 : rt2.jsonBody = none)
    (bl2 : Backend) (rl2 : BackendResponse)
    (hbl2 : bl2 (BACKEND_URL ++ "/api/library") = .success rl2) (hjl2 : rl2.jsonBody = none)
    (bd2 : Backend) (rd2 : BackendResponse)
    (hbd2 : bd2 (BACKEND_URL ++ "/api/library/" ++ encodeURIComponent fd) = .success rd2)
    (hjd2 : rd2.jsonBody = none)
    (bi3 : Backend) (ri3 : BackendResponse)
    (hbi3 : bi3 (BACKEND_URL ++ "/api/video/info?url=" ++ encodeURIComponent u) = .success ri3)
    (hoki3 : ri3.ok = false) (hji3 : ri3.jsonBody = none) :
    (infoGET pi bi).status = 500 ∧
    (infoGET pi bi).body = errorBody "Failed to get video information" ∧
    (infoGET pi bi).logs = ["Video info API error:"] ∧
    (searchGET ps bq).status = 500 ∧
    (searchGET ps bq).body = errorBody "Failed to search videos" ∧
    (searchGET ps bq).logs = ["Search API error:"] ∧
    (trendingGET bt).status = 500 ∧
    (trendingGET bt).body = errorBody "Failed to get trending videos" ∧
    (trendingGET bt).logs = ["Trending API error:"] ∧
    (libraryGET bl).status = 500 ∧
    (libraryGET bl).body = errorBody "Failed to get library" ∧
    (libraryGET bl).logs = ["Library API error:"] ∧
    (deleteVideoDELETE fd bd).status = 500 ∧
    (deleteVideoDELETE fd bd).body = errorBody "Failed to delete video" ∧
    (deleteVideoDELETE fd bd).logs = ["Delete video API error:"] ∧
    (streamGET f bs).status = 500 ∧
    (streamGET f bs).body = errorBody "Failed to stream video" ∧
    (streamGET f bs).logs = ["Stream API error:"] ∧
    (infoGET pi bi2).status = 500 ∧
    (infoGET pi bi2).body = errorBody "Failed to get video information" ∧
    (infoGET pi bi2).logs = ["Video info API error:"] ∧
    (searchGET ps bq2).status = 500 ∧
    (searchGET ps bq2).logs = ["Search API error:"] ∧
    (trendingGET bt2).status = 500 ∧
    (trendingGET bt2).logs = ["Trending API error:"] ∧
    (libraryGET bl2).status = 500 ∧
    (libraryGET bl2).logs = ["Library API error:"] ∧
    (deleteVideoDELETE fd bd2).status = 500 ∧
    (deleteVideoDELETE fd bd2).logs = ["Delete video API error:"] ∧
    (infoGET pi bi3).status = ri3.status ∧
    (infoGET pi bi3).body = errorBody "Unknown error" ∧
    (infoGET pi bi3).logs = [] := by
  refine ⟨?_, ?_, ?_, ?_, ?_, ?_, ?_, ?_, ?_, ?_, ?_, ?_, ?_, ?_, ?_, ?_, ?_, ?_, ?_, ?_,
    ?_, ?_, ?_, ?_, ?_, ?_, ?_, ?_, ?_, ?_, ?_, ?_⟩ <;>
    simp [infoGET, searchGET, trendingGET, libraryGET, deleteVideoDELETE, streamGET,
      hpu, hu, hpq, hqne, hpm, hmne, jsFalsyStr, jsOrDefault,
      hbi, hbq, hbt, hbl, hbd, hbs, hbi2, hoki2, hji2, hbq2, hjq2, hbt2, hjt2,
      hbl2, hjl2, hbd2, hjd2, hbi3, hoki3, hji3, jsGetField, List.lookup, Json.truthy,
      errorBody]

/-- Witness for C7 amended: all fetch rejections and decode failures at
concrete inputs; the info endpoint's non-2xx decode failure (status 418)
keeps the backend's status and logs nothing. -/
theorem C7_amended_exception_handling_witness :
    (infoGET (fun k => if k == "url" then some "x" else none) (fun _ => .failure)).status
      = 500 ∧
    (infoGET (fun k => if k == "url" then some "x" else none) (fun _ => .failure)).body
      = errorBody "Failed to get video information" ∧
    (infoGET (fun k => if k == "url" then some "x" else none) (fun _ => .failure)).logs
      = ["Video info API error:"] ∧
    (searchGET (fun k => if k == "q" then some "x" else
                         if k == "max_results" then some "5" else none)
      (fun _ => .failure)).status = 500 ∧
    (searchGET (fun k => if k == "q" then some "x" else
                         if k == "max_results" then some "5" else none)
      (fun _ => .failure)).body = errorBody "Failed to search videos" ∧
    (searchGET (fun k => if k == "q" then some "x" else
                         if k == "max_results" then some "5" else none)
      (fun _ => .failure)).logs = ["Search API error:"] ∧
    (trendingGET (fun _ => .failure)).status = 500 ∧
    (trendingGET (fun _ => .failure)).body = errorBody "Failed to get trending videos" ∧
    (trendingGET (fun _ => .failure)).logs = ["Trending API error:"] ∧
    (libraryGET (fun _ => .failure)).status = 500 ∧
    (libraryGET (fun _ => .failure)).body = errorBody "Failed to get library" ∧
    (libraryGET (fun _ => .failure)).logs = ["Library API error:"] ∧
    (deleteVideoDELETE "v" (fun _ => .failure)).status = 500 ∧
    (deleteVideoDELETE "v" (fun _ => .failure)).body = errorBody "Failed to delete video" ∧
    (deleteVideoDELETE "v" (fun _ => .failure)).logs = ["Delete video API error:"] ∧
    (streamGET "v" (fun _ => .failure)).status = 500 ∧
    (streamGET "v" (fun _ => .failure)).body = errorBody "Failed to stream video" ∧
    (streamGET "v" (fun _ => .failure)).logs = ["Stream API error:"] ∧
    (infoGET (fun k => if k == "url" then some "x" else none)
      (fun _ => .success { status := 200, contentType := none, contentLength := none,
                           bodyBytes := [], jsonBody := none })).status = 500 ∧
    (infoGET (fun k => if k == "url" then some "x" else none)
      (fun _ => .success { status := 200, contentType := none, contentLength := none,
                           bodyBytes := [], jsonBody := none })).body
      = errorBody "Failed to get video information" ∧
    (infoGET (fun k => if k == "url" then some "x" else none)
      (fun _ => .success { status := 200, contentType := none, contentLength := none,
                           bodyBytes := [], jsonBody := none })).logs
      = ["Video info API error:"] ∧
    (searchGET (fun k => if k == "q" then some "x" else
                         if k == "max_results" then some "5" else none)
      (fun _ => .success { status := 200, contentType := none, contentLength := none,
                           bodyBytes := [], jsonBody := none })).status = 500 ∧
    (searchGET (fun k => if k == "q" then some "x" else
                         if k == "max_results" then some "5" else none)
      (fun _ => .success { status := 200, contentType := none, contentLength := none,
                           bodyBytes := [], jsonBody := none })).logs
      = ["Search API error:"] ∧
    (trendingGET
      (fun _ => .success { status := 200, contentType := none, contentLength := none,
                           bodyBytes := [], jsonBody := none })).status = 500 ∧
    (trendingGET
      (fun _ => .success { status := 200, contentType := none, contentLength := none,
                           bodyBytes := [], jsonBody := none })).logs
      = ["Trending API error:"] ∧
    (libraryGET
      (fun _ => .success { status := 200, contentType := none, contentLength := none,
                           bodyBytes := [], jsonBody := none })).status = 500 ∧
    (libraryGET
      (fun _ => .success { status := 200, contentType := none, contentLength := none,
                           bodyBytes := [], jsonBody := none })).logs
      = ["Library API error:"] ∧
    (deleteVideoDELETE "v"
      (fun _ => .success { status := 200, contentType := none, contentLength := none,
                           bodyBytes := [], jsonBody := none })).status = 500 ∧
    (deleteVideoDELETE "v"
      (fun _ => .success { status := 200, contentType := none, contentLength := none,
                           bodyBytes := [], jsonBody := none })).logs
      = ["Delete video API error:"] ∧
    (infoGET (fun k => if k == "url" then some "x" else none)
      (fun _ => .success { status := 418, contentType := none, contentLength := none,
                           bodyBytes := [], jsonBody := none })).status = 418 ∧
    (infoGET (fun k => if k == "url" then some "x" else none)
      (fun _ => .success { status := 418, contentType := none, contentLength := none,
                           bodyBytes := [], jsonBody := none })).body
      = errorBody "Unknown error" ∧
    (infoGET (fun k => if k == "url" then some "x" else none)
      (fun _ => .success { status := 418, contentType := none, contentLength := none,
                           bodyBytes := [], jsonBody := none })).logs = [] :=
  C7_amended_exception_handling
    _ "x" rfl (by decide) _ "x" rfl (by decide) "5" rfl (by decide) "v" "v"
    _ _ _ _ _ _ rfl rfl rfl rfl rfl rfl
    _ { status := 200, contentType := none, contentLength := none,
                           bodyBytes := [], jsonBody := none } rfl rfl rfl
    _ { status := 200, contentType := none, contentLength := none,
                           bodyBytes := [], jsonBody := none } rfl rfl
    _ { status := 200, contentType := none, contentLength := none,
                           bodyBytes := [], jsonBody := none } rfl rfl
    _ { status := 200, contentType := none, contentLength := none,
                           bodyBytes := [], jsonBody := none } rfl rfl
    _ { status := 200, contentType := none, contentLength := none,
                           bodyBytes := [], jsonBody := none } rfl rfl
    _ { status := 418, contentType := none, contentLength := none,
                           bodyBytes := [], jsonBody := none } rfl rfl rfl

end OfflineTube
